import Mathlib

/-!
Shallow embedding of the traffic simulator in `src/main.py`.

Conventions of the embedding:
* Python integers are `Int`; the uniform random draws consumed by the
  stochastic effects are rationals in `[0, 1)` supplied by a stream
  `u : Nat → ℚ`, read at an explicit index that is threaded through every
  draw site in program order (this models the shared global random state of
  the `random` / `numpy.random` modules as the single shared stream the
  design describes).
* `random.choice([True, False])` is a Bernoulli(1/2) draw,
  `npr.choice([True, False], 1, p=[0.4, 0.6])[0]` a Bernoulli(2/5) draw and
  `npr.choice([True, False], 1, p=[0.05, 0.95])[0]` a Bernoulli(1/20) draw,
  all by inverse-transform sampling (`true` iff the uniform draw is below
  the probability of `True`).
* The simpy scheduler is embedded by its actual semantics: `env.run(until=t)`
  schedules the stopping event at time `t` with URGENT priority, so it is
  processed before any process timeout scheduled at time `t`; consequently a
  `car_process` generator resumes only at times strictly below `time_limit`,
  and the whole run performs exactly one scheduler pass per time
  `0, 1, ..., time_limit - 1`, each pass resuming the still-running car
  generators in creation order.
-/

namespace TrafficSim

/-- A car as in `Car.__init__`: identity, current speed, current position. -/
structure Car where
  id : Nat
  speed : Int
  position : Int
deriving DecidableEq

/-- `Car.move`: `self.position += self.speed`. -/
def Car.move (c : Car) : Car :=
  { c with position := c.position + c.speed }

/-- The closed set of road objects of `main.py` (`SpeedCamera`, `SpeedBump`,
`CongestionCharging`, `TrafficCollisionDetection`), each with its
construction parameters. -/
inductive RoadObject where
  | speedCamera (speed_limit : Int)
  | speedBump (slow_down : Int)
  | congestionCharging (fumes : ℚ)
  | trafficCollisionDetection
deriving DecidableEq

/-- One Bernoulli draw by inverse transform: `true` (the first element of the
two-element choice) iff the uniform draw `v` falls below its probability `p`. -/
def bern (p v : ℚ) : Bool :=
  decide (v < p)

/-- `RoadObject.affect(car, env)`: the effect of one road object on one car,
given the uniform stream `u` and the current stream index `i`; returns the
updated car and the next stream index.

* `speedCamera`: with probability 1/2, `car.speed = max(car.speed - 5, 1)`;
  the subsequent `car.speed > speed_limit` check only prints.
* `speedBump`: `car.speed = max(car.speed - slow_down, 1)`, no draw.
* `congestionCharging`: nothing unless `fumes > 0.5`; then one draw: with
  probability 2/5 the car is only charged (speed unchanged), otherwise
  `car.speed = 0`.
* `trafficCollisionDetection`: one draw: with probability 1/20,
  `car.speed = 0`. -/
def affect : RoadObject → Car → (Nat → ℚ) → Nat → Car × Nat
  | .speedCamera _, car, u, i =>
      (if bern (mkRat 1 2) (u i) then { car with speed := max (car.speed - 5) 1 }
       else car, i + 1)
  | .speedBump slow_down, car, _, i =>
      ({ car with speed := max (car.speed - slow_down) 1 }, i)
  | .congestionCharging fumes, car, u, i =>
      if mkRat 1 2 < fumes then
        (if bern (mkRat 2 5) (u i) then car else { car with speed := 0 }, i + 1)
      else (car, i)
  | .trafficCollisionDetection, car, u, i =>
      (if bern (mkRat 1 20) (u i) then { car with speed := 0 } else car, i + 1)

/-- A road: target length and the ordered list of road objects. -/
structure Road where
  length : Int
  objects : List RoadObject
deriving DecidableEq

/-- `Road.check_objects(car, env)`: apply every road object to the car in
list order, threading the draw stream index. -/
def Road.check_objects (road : Road) (car : Car) (u : Nat → ℚ) (i : Nat) :
    Car × Nat :=
  road.objects.foldl (fun p obj => affect obj p.1 u p.2) (car, i)

/-- State of one scheduler pass: the still-running cars in creation order,
the ids appended to `finished_cars` so far (in append order), and the
current draw-stream index. -/
structure SimState where
  alive : List Car
  finished : List Nat
  idx : Nat
deriving DecidableEq

/-- One scheduler pass over the still-running cars at a time strictly below
`time_limit`, in creation order. Resuming `car_process` at such a time:
if `car.position < road.length` the loop body runs (`car.move()` then
`road.check_objects(car, env)`) and the process suspends again; otherwise
the loop exits and, since `env.now <= time_limit` holds, the id is appended
to `finished_cars`. Returns (still running cars, newly finished ids, next
stream index). -/
def tickCars (road : Road) (u : Nat → ℚ) :
    List Car → Nat → List Car × List Nat × Nat
  | [], i => ([], [], i)
  | c :: cs, i =>
      if road.length ≤ c.position then
        let r := tickCars road u cs i
        (r.1, c.id :: r.2.1, r.2.2)
      else
        let a := road.check_objects c.move u i
        let r := tickCars road u cs a.2
        (a.1 :: r.1, r.2.1, r.2.2)

/-- One engine tick: run a scheduler pass and accumulate finished ids. -/
def tick (road : Road) (u : Nat → ℚ) (s : SimState) : SimState :=
  let r := tickCars road u s.alive s.idx
  { alive := r.1, finished := s.finished ++ r.2.1, idx := r.2.2 }

/-- The clocked engine state: `env.now` plus the scheduler state. -/
structure ClockState where
  clock : Nat
  sim : SimState
deriving DecidableEq

/-- The engine loop of `env.run(until=time_limit)`, with explicit fuel as the
termination measure: while `clock < time_limit` and fuel remains, perform one
tick. Since the stopping event has URGENT priority, no process resumes at
`clock = time_limit`, so passes happen exactly at clocks
`0, ..., time_limit - 1`. -/
def runLoop (road : Road) (u : Nat → ℚ) (time_limit : Nat) :
    Nat → ClockState → ClockState
  | 0, s => s
  | fuel + 1, s =>
      if s.clock < time_limit then
        runLoop road u time_limit fuel ⟨s.clock + 1, tick road u s.sim⟩
      else s

/-- A whole engine run: start all car processes at clock 0 with stream index
`i` and run until `time_limit`. -/
def runSim (road : Road) (u : Nat → ℚ) (cars : List Car) (time_limit : Nat)
    (i : Nat) : SimState :=
  (runLoop road u time_limit time_limit ⟨0, ⟨cars, [], i⟩⟩).sim

/-- Inverse-transform sampling of
`npr.choice([0.1, ..., 0.9], 1, p=[0.05, 0.1, 0.1, 0.15, 0.2, 0.15, 0.1, 0.1, 0.05])`
(the fumes parameter of the congestion-charging object). -/
def fumesOf (v : ℚ) : ℚ :=
  if v < mkRat 1 20 then mkRat 1 10
  else if v < mkRat 3 20 then mkRat 2 10
  else if v < mkRat 5 20 then mkRat 3 10
  else if v < mkRat 8 20 then mkRat 4 10
  else if v < mkRat 12 20 then mkRat 5 10
  else if v < mkRat 15 20 then mkRat 6 10
  else if v < mkRat 17 20 then mkRat 7 10
  else if v < mkRat 19 20 then mkRat 8 10
  else mkRat 9 10

/-- Inverse-transform sampling of
`random.choices([10, 15, 20, 25, 30], weights=[1, 3, 5, 3, 1])[0]`
(total weight 13), the initial-speed distribution. -/
def speedChoice (v : ℚ) : Int :=
  if v < mkRat 1 13 then 10
  else if v < mkRat 4 13 then 15
  else if v < mkRat 9 13 then 20
  else if v < mkRat 12 13 then 25
  else 30

/-- The road built inside `run_simulation`: length 100 and the fixed object
list `[SpeedCamera(15), SpeedBump(5), CongestionCharging(fumes),
TrafficCollisionDetection()]`, where `fumes` was drawn at road construction. -/
def simulationRoad (fumes : ℚ) : Road :=
  { length := 100
    objects := [.speedCamera 15, .speedBump 5, .congestionCharging fumes,
                .trafficCollisionDetection] }

/-- `run_simulation(num_cars, time_limit)`. In order: draw the fumes
parameter (one draw), draw `num_cars` initial speeds, build the cars with
ids `1, ..., num_cars` and position 0, register the processes, then
`env.run(until=time_limit)` — which raises
`ValueError: until ... must be > the current simulation time` when
`time_limit <= 0`, before any tick executes but after the draws were
consumed. Returns `len(finished_cars)` (or the error) together with the
post-call stream index (the state the call leaves in the shared random
stream). The cars built are `Car(id=k+1, speed=speeds[k])` for
`k < num_cars`: -/
def simulationCars (num_cars : Nat) (u : Nat → ℚ) (i : Nat) : List Car :=
  (List.range num_cars).map
    (fun k => { id := k + 1, speed := speedChoice (u (i + 1 + k)),
                position := 0 : Car })

/-- `run_simulation(num_cars, time_limit)`, continued: see the builders
above. -/
def run_simulation (num_cars : Nat) (time_limit : Int) (u : Nat → ℚ)
    (i : Nat) : Except String Nat × Nat :=
  let road := simulationRoad (fumesOf (u i))
  let cars := simulationCars num_cars u i
  let j := i + 1 + num_cars
  if time_limit ≤ 0 then
    (Except.error "until must be greater than the current simulation time", j)
  else
    let s := runSim road u cars time_limit.toNat j
    (Except.ok s.finished.length, s.idx)

/-- The configuration record named by the external-interface section of the
design. The code's entry point has parameters only for `num_cars`
(`num_vehicles`) and `time_limit`; this record is used to state which fields
the entry point actually reads. -/
structure SimConfig where
  num_vehicles : Nat
  time_limit : Int
  road_length : Int
  speed_limit : Int
  bump_amount : Int
  congestion_fumes : ℚ
  speed_values : List Int
  speed_weights : List ℚ

/-- The entry point as invoked with a full configuration record: only
`num_vehicles` and `time_limit` are passed on. -/
def run_config (cfg : SimConfig) (u : Nat → ℚ) (i : Nat) :
    Except String Nat × Nat :=
  run_simulation cfg.num_vehicles cfg.time_limit u i

/-! ## Engine lemmas -/

/-- With enough fuel, the engine loop started at clock `c ≤ time_limit`
performs exactly `time_limit - c` ticks and stops with the clock at
`time_limit`. -/
theorem runLoop_eq_iterate (road : Road) (u : Nat → ℚ) (tl : Nat) :
    ∀ (fuel c : Nat) (s : SimState), c ≤ tl → tl - c ≤ fuel →
      runLoop road u tl fuel ⟨c, s⟩ = ⟨tl, (tick road u)^[tl - c] s⟩ := by
  intro fuel
  induction fuel with
  | zero =>
      intro c s hc hf
      have hce : c = tl := by omega
      subst hce
      simp [runLoop]
  | succ n ih =>
      intro c s hc hf
      by_cases h : c < tl
      · have h2 : c + 1 ≤ tl := by omega
        have h1 : tl - (c + 1) ≤ n := by omega
        have hit : tl - c = (tl - (c + 1)) + 1 := by omega
        simp only [runLoop, h, if_true]
        rw [ih (c + 1) (tick road u s) h2 h1, hit,
          Function.iterate_succ_apply]
      · have hce : c = tl := by omega
        subst hce
        simp [runLoop, h]

/-- A whole run is `time_limit` iterations of the tick function. -/
theorem runSim_eq_iterate (road : Road) (u : Nat → ℚ) (cars : List Car)
    (tl i : Nat) :
    runSim road u cars tl i = (tick road u)^[tl] ⟨cars, [], i⟩ := by
  unfold runSim
  rw [runLoop_eq_iterate road u tl tl 0 ⟨cars, [], i⟩ (Nat.zero_le _)
    (by omega)]
  simp

/-- Ticking only appends to the finished-id list. -/
theorem finished_extends (road : Road) (u : Nat → ℚ) :
    ∀ (n : Nat) (s : SimState),
      ∃ t, ((tick road u)^[n] s).finished = s.finished ++ t := by
  intro n
  induction n with
  | zero => exact fun s => ⟨[], by simp⟩
  | succ n ih =>
      intro s
      rw [Function.iterate_succ_apply]
      obtain ⟨t, ht⟩ := ih (tick road u s)
      refine ⟨(tickCars road u s.alive s.idx).2.1 ++ t, ?_⟩
      rw [ht]
      show (tick road u s).finished ++ t = _
      simp [tick, List.append_assoc]

/-- Within one scheduler pass, every car either stays running or finishes. -/
theorem tickCars_count (road : Road) (u : Nat → ℚ) :
    ∀ (cars : List Car) (i : Nat),
      (tickCars road u cars i).1.length
        + (tickCars road u cars i).2.1.length = cars.length := by
  intro cars
  induction cars with
  | nil => intro i; simp [tickCars]
  | cons c cs ih =>
      intro i
      by_cases h : road.length ≤ c.position
      · have := ih i
        simp only [tickCars, h, if_true, List.length_cons]
        simpa using by omega
      · have := ih (road.check_objects c.move u i).2
        simp only [tickCars, h, if_false, List.length_cons]
        simpa using by omega

/-- The total number of cars (running plus finished) is preserved by the
engine. -/
theorem run_count (road : Road) (u : Nat → ℚ) :
    ∀ (n : Nat) (s : SimState),
      ((tick road u)^[n] s).alive.length
          + ((tick road u)^[n] s).finished.length
        = s.alive.length + s.finished.length := by
  intro n
  induction n with
  | zero => intro s; simp
  | succ n ih =>
      intro s
      rw [Function.iterate_succ_apply]
      have h1 := ih (tick road u s)
      have h2 := tickCars_count road u s.alive s.idx
      have ha : (tick road u s).alive = (tickCars road u s.alive s.idx).1 :=
        rfl
      have hf : (tick road u s).finished
          = s.finished ++ (tickCars road u s.alive s.idx).2.1 := rfl
      rw [h1, ha, hf]
      simp only [List.length_append]
      omega

/-- A run never records more finished ids than it has cars. -/
theorem runSim_finished_le (road : Road) (u : Nat → ℚ) (cars : List Car)
    (tl i : Nat) : (runSim road u cars tl i).finished.length ≤ cars.length := by
  rw [runSim_eq_iterate]
  have := run_count road u tl ⟨cars, [], i⟩
  simp at this
  omega

/-! ## Claim theorems -/

/-- C1 (code bug, evaluation at the failing input): a single car of speed 50
on an effect-free road of length 50 with `time_limit = 1` reaches position 50
(= the road length) at clock 1 (= the time limit), yet the run records no
finished id: the scheduler stops before the process can resume at
`env.now = time_limit`, so the recording branch guarded by
`env.now <= time_limit` never sees the equality case the claim (and the
code's own condition) describe. -/
theorem C1_finish_at_time_limit_dropped :
    (runSim ⟨50, []⟩ (fun _ => 0) [⟨1, 50, 0⟩] 1 0).finished = []
    ∧ (runSim ⟨50, []⟩ (fun _ => 0) [⟨1, 50, 0⟩] 1 0).alive.map Car.position
        = [50]
    ∧ ((50 : Int) ≤ 50) := by
  refine ⟨by decide, by decide, le_refl _⟩

/-- C2 (counterexample): on the bump-only road the position after tick 3 is
16, not the 20 the spec's hand trajectory lists (after tick 2 the bump floors
speed 5 - 5 at 1). -/
theorem C2_spec_trajectory_wrong :
    (runSim ⟨100, [.speedBump 5]⟩ (fun _ => 0) [⟨1, 10, 0⟩] 3 0).alive.map
        Car.position = [16]
    ∧ ¬ ((runSim ⟨100, [.speedBump 5]⟩ (fun _ => 0) [⟨1, 10, 0⟩] 3 0).alive.map
        Car.position = [20]) := by
  constructor
  · decide
  · decide

/-- C2 (amended): single car of speed 10, road length 100, only a
SpeedBump(5): per-tick (position, speed) are (10, 5), (15, 1), (16, 1),
(17, 1), ... — speed drops to 5 after tick 1 and is floored at 1 from tick 2
on — and the car first reaches position 100 at tick 87, so it is recorded
Finished exactly when `time_limit` is at least 88. -/
theorem C2_bump_trajectory :
    ((runSim ⟨100, [.speedBump 5]⟩ (fun _ => 0) [⟨1, 10, 0⟩] 1 0).alive.map
        (fun c => (c.position, c.speed)) = [(10, 5)])
    ∧ ((runSim ⟨100, [.speedBump 5]⟩ (fun _ => 0) [⟨1, 10, 0⟩] 2 0).alive.map
        (fun c => (c.position, c.speed)) = [(15, 1)])
    ∧ ((runSim ⟨100, [.speedBump 5]⟩ (fun _ => 0) [⟨1, 10, 0⟩] 4 0).alive.map
        (fun c => (c.position, c.speed)) = [(17, 1)])
    ∧ ((runSim ⟨100, [.speedBump 5]⟩ (fun _ => 0) [⟨1, 10, 0⟩] 86 0).alive.map
        (fun c => (c.position, c.speed)) = [(99, 1)])
    ∧ ((runSim ⟨100, [.speedBump 5]⟩ (fun _ => 0) [⟨1, 10, 0⟩] 87 0).alive.map
        (fun c => (c.position, c.speed)) = [(100, 1)])
    ∧ ((runSim ⟨100, [.speedBump 5]⟩ (fun _ => 0) [⟨1, 10, 0⟩] 87 0).finished
        = [])
    ∧ ((runSim ⟨100, [.speedBump 5]⟩ (fun _ => 0) [⟨1, 10, 0⟩] 88 0).finished
        = [1]) := by
  refine ⟨by decide, by decide, by decide, by decide, by decide, by decide,
    by decide⟩

/-- C3 (code bug, evaluation at the failing input): a car of constant speed
10 on an effect-free road of length 100 first reaches the length at tick
`ceil(100 / 10) = 10`, but with `time_limit = 10` (equal to that tick, so "at
least" it) nothing is recorded; only from `time_limit = 11` on is the car
recorded Finished. -/
theorem C3_ceil_finish_needs_strict_limit :
    (runSim ⟨100, []⟩ (fun _ => 0) [⟨1, 10, 0⟩] 10 0).finished = []
    ∧ (runSim ⟨100, []⟩ (fun _ => 0) [⟨1, 10, 0⟩] 11 0).finished = [1]
    ∧ (((100 : Int) + 10 - 1) / 10 = 10) := by
  refine ⟨by decide, by decide, by decide⟩

/-- C4: for every road, draw stream, population and time limit, and any
amount of available fuel at least `time_limit`, the engine loop executes
exactly `time_limit` ticks and stops with the clock at `time_limit`: extra
fuel is never consumed, so the run terminates within `time_limit` ticks
regardless of population size or effect outcomes. -/
theorem C4_engine_tick_bound (road : Road) (u : Nat → ℚ) (tl fuel : Nat)
    (s : SimState) (h : tl ≤ fuel) :
    runLoop road u tl fuel ⟨0, s⟩ = ⟨tl, (tick road u)^[tl] s⟩ := by
  have := runLoop_eq_iterate road u tl fuel 0 s (Nat.zero_le _) (by omega)
  simpa using this

/-- Witness for C4 at a concrete input: with fuel 5 and time limit 2, the
loop stops after exactly 2 ticks. -/
theorem C4_engine_tick_bound_witness :
    runLoop ⟨20, []⟩ (fun _ => 0) 2 5 ⟨0, ⟨[⟨1, 10, 0⟩], [], 0⟩⟩
      = ⟨2, (tick ⟨20, []⟩ (fun _ => 0))^[2] ⟨[⟨1, 10, 0⟩], [], 0⟩⟩ :=
  C4_engine_tick_bound ⟨20, []⟩ (fun _ => 0) 2 5 ⟨[⟨1, 10, 0⟩], [], 0⟩
    (by decide)

/-- C5 (counterexample): SpeedEnforcement does not guarantee speed ≥ 1: on a
draw where the probabilistic slowdown does not fire (uniform draw 1 ≥ 1/2),
a car of speed 0 keeps speed 0 after the camera. -/
theorem C5_camera_keeps_zero_speed :
    (affect (.speedCamera 15) ⟨1, 0, 0⟩ (fun _ => 1) 0).1.speed = 0
    ∧ ¬ (1 ≤ (affect (.speedCamera 15) ⟨1, 0, 0⟩ (fun _ => 1) 0).1.speed) := by
  constructor
  · decide
  · decide

/-- C5 (amended): any single effect application keeps a non-negative speed
non-negative; a SpeedBump always leaves speed ≥ 1; SpeedEnforcement leaves
speed ≥ 1 whenever the incoming speed is ≥ 1 or its probabilistic slowdown
fires. -/
theorem C5_effect_speed_bounds :
    (∀ (obj : RoadObject) (car : Car) (u : Nat → ℚ) (i : Nat),
      0 ≤ car.speed → 0 ≤ (affect obj car u i).1.speed)
    ∧ (∀ (sd : Int) (car : Car) (u : Nat → ℚ) (i : Nat),
        1 ≤ (affect (.speedBump sd) car u i).1.speed)
    ∧ (∀ (lim : Int) (car : Car) (u : Nat → ℚ) (i : Nat),
        1 ≤ car.speed ∨ bern (mkRat 1 2) (u i) = true →
          1 ≤ (affect (.speedCamera lim) car u i).1.speed) := by
  refine ⟨?_, ?_, ?_⟩
  · intro obj car u i h0
    cases obj with
    | speedCamera lim =>
        by_cases hb : bern (mkRat 1 2) (u i) = true
        · simp [affect, hb]
        · simp [affect, hb]
          omega
    | speedBump sd =>
        simp [affect]
    | congestionCharging fumes =>
        by_cases hf : mkRat 1 2 < fumes
        · by_cases hb : bern (mkRat 2 5) (u i) = true
          · simp [affect, hf, hb]
            omega
          · simp [affect, hf, hb]
        · simp [affect, hf]
          omega
    | trafficCollisionDetection =>
        by_cases hb : bern (mkRat 1 20) (u i) = true
        · simp [affect, hb]
        · simp [affect, hb]
          omega
  · intro sd car u i
    simp [affect]
  · intro lim car u i h
    by_cases hb : bern (mkRat 1 2) (u i) = true
    · simp [affect, hb]
    · rcases h with h | h
      · simp [affect, hb]
        omega
      · exact absurd h hb

/-- Witness for C5 at concrete inputs: collision detection keeps speed 3
non-negative, a bump leaves a stopped car at speed ≥ 1, and a camera whose
slowdown fires (uniform draw 0 < 1/2) leaves a stopped car at speed ≥ 1. -/
theorem C5_effect_speed_bounds_witness :
    (0 ≤ (affect .trafficCollisionDetection ⟨1, 3, 0⟩ (fun _ => 0) 0).1.speed)
    ∧ (1 ≤ (affect (.speedBump 5) ⟨1, 0, 0⟩ (fun _ => 0) 0).1.speed)
    ∧ (1 ≤ (affect (.speedCamera 15) ⟨2, 0, 0⟩ (fun _ => 0) 0).1.speed) :=
  ⟨C5_effect_speed_bounds.1 .trafficCollisionDetection ⟨1, 3, 0⟩ (fun _ => 0)
      0 (by decide),
   C5_effect_speed_bounds.2.1 5 ⟨1, 0, 0⟩ (fun _ => 0) 0,
   C5_effect_speed_bounds.2.2 15 ⟨2, 0, 0⟩ (fun _ => 0) 0
      (Or.inr (by decide))⟩

/-- C6: congestion charging is a no-op (consuming no draw) when
`fumes ≤ 0.5`; when `fumes > 0.5` it consumes one draw and either charges the
car leaving its speed unchanged (on the Bernoulli(2/5) success, i.e. exactly
on the sub-interval `[0, 2/5)` of the unit draw interval — probability 0.4)
or sets the speed to exactly 0 (on the complement — probability 0.6). -/
theorem C6_congestion_behaviour :
    (∀ (fumes : ℚ) (car : Car) (u : Nat → ℚ) (i : Nat), fumes ≤ mkRat 1 2 →
      affect (.congestionCharging fumes) car u i = (car, i))
    ∧ (∀ (fumes : ℚ) (car : Car) (u : Nat → ℚ) (i : Nat), mkRat 1 2 < fumes →
        bern (mkRat 2 5) (u i) = true →
          affect (.congestionCharging fumes) car u i = (car, i + 1))
    ∧ (∀ (fumes : ℚ) (car : Car) (u : Nat → ℚ) (i : Nat), mkRat 1 2 < fumes →
        bern (mkRat 2 5) (u i) = false →
          affect (.congestionCharging fumes) car u i
            = ({ car with speed := 0 }, i + 1))
    ∧ (∀ v : ℚ, v ∈ Set.Ico (0 : ℚ) 1 →
        (bern (mkRat 2 5) v = true ↔ v ∈ Set.Ico (0 : ℚ) (mkRat 2 5))) := by
  refine ⟨?_, ?_, ?_, ?_⟩
  · intro fumes car u i h
    have hf : ¬ (mkRat 1 2 < fumes) := not_lt.mpr h
    simp [affect, hf]
  · intro fumes car u i hf hb
    simp [affect, hf, hb]
  · intro fumes car u i hf hb
    simp [affect, hf, hb]
  · intro v hv
    simp only [Set.mem_Ico] at hv ⊢
    simp only [bern, decide_eq_true_eq]
    exact ⟨fun h => ⟨hv.1, h⟩, fun h => h.2⟩

/-- Witness for C6 at concrete inputs: with fumes 1/4 the effect is the
identity; with fumes 3/5 and draw 1/10 the car is charged and unchanged; with
fumes 3/5 and draw 9/10 the car stalls; the draw 1/10 lies in the
probability-0.4 charging interval. -/
theorem C6_congestion_behaviour_witness :
    (affect (.congestionCharging (mkRat 1 4)) ⟨1, 7, 0⟩ (fun _ => mkRat 1 10) 0
        = (⟨1, 7, 0⟩, 0))
    ∧ (affect (.congestionCharging (mkRat 3 5)) ⟨1, 7, 0⟩ (fun _ => mkRat 1 10)
        0 = (⟨1, 7, 0⟩, 1))
    ∧ (affect (.congestionCharging (mkRat 3 5)) ⟨1, 7, 0⟩ (fun _ => mkRat 9 10)
        0 = (⟨1, 0, 0⟩, 1))
    ∧ (bern (mkRat 2 5) (mkRat 1 10) = true
        ↔ (mkRat 1 10 : ℚ) ∈ Set.Ico (0 : ℚ) (mkRat 2 5)) :=
  ⟨C6_congestion_behaviour.1 (mkRat 1 4) ⟨1, 7, 0⟩ (fun _ => mkRat 1 10) 0
      (by decide),
   C6_congestion_behaviour.2.1 (mkRat 3 5) ⟨1, 7, 0⟩ (fun _ => mkRat 1 10) 0
      (by decide) (by decide),
   C6_congestion_behaviour.2.2.1 (mkRat 3 5) ⟨1, 7, 0⟩ (fun _ => mkRat 9 10) 0
      (by decide) (by decide),
   C6_congestion_behaviour.2.2.2 (mkRat 1 10)
      (Set.mem_Ico.mpr ⟨by decide, by decide⟩)⟩

/-- C7: with the road, the car population and the draw stream held fixed,
enlarging the time limit only extends the recorded finished-id list: every id
recorded under the smaller limit is recorded under the larger one, and the
finished count never decreases. -/
theorem C7_finished_monotone (road : Road) (u : Nat → ℚ) (cars : List Car)
    (i tl tl' : Nat) (h : tl ≤ tl') :
    (∀ a ∈ (runSim road u cars tl i).finished,
        a ∈ (runSim road u cars tl' i).finished)
    ∧ (runSim road u cars tl i).finished.length
        ≤ (runSim road u cars tl' i).finished.length := by
  have e : tl' = (tl' - tl) + tl := by omega
  simp only [runSim_eq_iterate]
  rw [e, Function.iterate_add_apply]
  obtain ⟨t, ht⟩ := finished_extends road u (tl' - tl)
    ((tick road u)^[tl] ⟨cars, [], i⟩)
  rw [ht]
  exact ⟨fun a ha => List.mem_append_left _ ha, by simp⟩

/-- Witness for C7 at a concrete input: on an effect-free road of length 20 a
car of speed 10 is unrecorded with time limit 1 but recorded with time limit
3, and 0 ≤ 1 on the counts. -/
theorem C7_finished_monotone_witness :
    (∀ a ∈ (runSim ⟨20, []⟩ (fun _ => 0) [⟨1, 10, 0⟩] 1 0).finished,
        a ∈ (runSim ⟨20, []⟩ (fun _ => 0) [⟨1, 10, 0⟩] 3 0).finished)
    ∧ (runSim ⟨20, []⟩ (fun _ => 0) [⟨1, 10, 0⟩] 1 0).finished.length
        ≤ (runSim ⟨20, []⟩ (fun _ => 0) [⟨1, 10, 0⟩] 3 0).finished.length :=
  C7_finished_monotone ⟨20, []⟩ (fun _ => 0) [⟨1, 10, 0⟩] 0 1 3 (by decide)

/-- C8 (counterexample): the entry point's behaviour does not depend on the
claimed configuration fields: handed two configurations that differ in
road_length (50 vs 100), speed_limit, bump_amount, congestion_fumes,
speed_values and speed_weights but agree on num_vehicles and time_limit, the
run is identical; and the simulated road's length is 100, not the
configuration's road_length of 50. -/
theorem C8_config_fields_ignored :
    run_config ⟨1, 5, 50, 15, 5, mkRat 1 2, [10], [1]⟩
        (fun _ => mkRat 11 20) 0
      = run_config ⟨1, 5, 100, 0, 99, mkRat 9 10, [], []⟩
        (fun _ => mkRat 11 20) 0
    ∧ (⟨1, 5, 50, 15, 5, mkRat 1 2, [10], [1]⟩ : SimConfig).road_length
        ≠ (⟨1, 5, 100, 0, 99, mkRat 9 10, [], []⟩ : SimConfig).road_length
    ∧ (simulationRoad (fumesOf ((fun _ => mkRat 11 20) 0))).length
        ≠ (⟨1, 5, 50, 15, 5, mkRat 1 2, [10], [1]⟩ : SimConfig).road_length :=
  ⟨rfl, by decide, by decide⟩

/-- C8 (amended): the entry point `run_simulation` reads only the population
size (`num_cars`) and `time_limit` from its configuration — any two
configurations agreeing on those two fields produce identical runs — while
the simulated road's length is the constant 100 and the returned finished
count never exceeds the population size. -/
theorem C8_run_reads_only_two_fields :
    (∀ (cfg cfg' : SimConfig) (u : Nat → ℚ) (i : Nat),
      cfg.num_vehicles = cfg'.num_vehicles → cfg.time_limit = cfg'.time_limit →
        run_config cfg u i = run_config cfg' u i)
    ∧ (∀ fumes : ℚ, (simulationRoad fumes).length = 100)
    ∧ (∀ (n : Nat) (tl : Int) (u : Nat → ℚ) (i c : Nat),
        (run_simulation n tl u i).1 = Except.ok c → c ≤ n) := by
  refine ⟨?_, ?_, ?_⟩
  · intro cfg cfg' u i h1 h2
    unfold run_config
    rw [h1, h2]
  · intro fumes
    rfl
  · intro n tl u i c h
    by_cases htl : tl ≤ 0
    · simp [run_simulation, htl] at h
    · simp [run_simulation, htl] at h
      have hb := runSim_finished_le (simulationRoad (fumesOf (u i))) u
        (simulationCars n u i) tl.toNat (i + 1 + n)
      have hn : (simulationCars n u i).length = n := by
        simp [simulationCars]
      omega

/-- Witness for C8 at concrete inputs: two configurations agreeing only on
population 2 and time limit 4 give the same run; a concrete road has length
100; and the concrete run of 2 cars for 1 tick returns a finished count
(zero) that is at most 2. -/
theorem C8_run_reads_only_two_fields_witness :
    run_config ⟨2, 4, 50, 15, 5, mkRat 1 2, [10], [1]⟩
        (fun _ => mkRat 11 20) 0
      = run_config ⟨2, 4, 77, 0, 0, mkRat 1 10, [], []⟩
        (fun _ => mkRat 11 20) 0
    ∧ (simulationRoad (mkRat 1 2)).length = 100
    ∧ (0 : Nat) ≤ 2 :=
  ⟨C8_run_reads_only_two_fields.1 ⟨2, 4, 50, 15, 5, mkRat 1 2, [10], [1]⟩
      ⟨2, 4, 77, 0, 0, mkRat 1 10, [], []⟩ (fun _ => mkRat 11 20) 0 rfl rfl,
   C8_run_reads_only_two_fields.2.1 (mkRat 1 2),
   C8_run_reads_only_two_fields.2.2 2 1 (fun _ => mkRat 11 20) 0 0 rfl⟩

/-- C9 (counterexample): calling the entry point with the invalid time limit
0 does fail before any tick, but not cleanly: it has already consumed two
draws from the shared random stream (the fumes draw and one initial-speed
draw), so the stream index it leaves behind is 2, not the 0 it started
with — partial run state escapes the rejected call. -/
theorem C9_invalid_limit_leaves_state :
    run_simulation 1 0 (fun _ => mkRat 11 20) 0
      = (Except.error "until must be greater than the current simulation time",
         2)
    ∧ (2 : Nat) ≠ 0 :=
  ⟨rfl, by decide⟩

/-- C9 (amended): the entry point performs no configuration validation of its
own; for every non-positive time limit the scheduler's `run(until=...)`
precondition raises before any tick executes (no engine state appears in the
result), but only after the fumes draw and the `num_cars` initial-speed draws
have been consumed from the shared random stream. -/
theorem C9_nonpositive_limit_errors (n : Nat) (tl : Int) (u : Nat → ℚ)
    (i : Nat) (h : tl ≤ 0) :
    run_simulation n tl u i
      = (Except.error "until must be greater than the current simulation time",
         i + 1 + n) := by
  simp [run_simulation, h]

/-- Witness for C9 at a concrete input: population 2, time limit -3, starting
stream index 5 — the call errors and leaves the stream index at 8. -/
theorem C9_nonpositive_limit_errors_witness :
    run_simulation 2 (-3) (fun _ => mkRat 11 20) 5
      = (Except.error "until must be greater than the current simulation time",
         8) :=
  C9_nonpositive_limit_errors 2 (-3) (fun _ => mkRat 11 20) 5 (by decide)

/-- C10: a SpeedBump sets the speed of any car at or below its slow_down
amount (in particular a stopped car) to exactly 1; a SpeedEnforcement whose
penalty draw fires does the same for any car at speed ≤ 5; and a car stopped
by an earlier tick's stop effect (speed 0) leaves the camera-then-bump prefix
of the default pipeline with speed exactly 1, whatever the draws — the zero
does not survive the SpeedBump stage. -/
theorem C10_bump_revives_stopped_car :
    (∀ (sd : Int) (car : Car) (u : Nat → ℚ) (i : Nat), car.speed ≤ sd →
      (affect (.speedBump sd) car u i).1.speed = 1)
    ∧ (∀ (lim : Int) (car : Car) (u : Nat → ℚ) (i : Nat), car.speed ≤ 5 →
        bern (mkRat 1 2) (u i) = true →
          (affect (.speedCamera lim) car u i).1.speed = 1)
    ∧ (∀ (car : Car) (u : Nat → ℚ) (i : Nat), car.speed = 0 →
        (affect (.speedBump 5)
            (affect (.speedCamera 15) car u i).1 u
            (affect (.speedCamera 15) car u i).2).1.speed = 1) := by
  refine ⟨?_, ?_, ?_⟩
  · intro sd car u i h
    simp [affect]
    omega
  · intro lim car u i h hb
    simp [affect, hb]
    omega
  · intro car u i h
    by_cases hb : bern (mkRat 1 2) (u i) = true
    · simp [affect, hb, h]
    · simp [affect, hb, h]

/-- Witness for C10 at concrete inputs: a bump raises a stopped car to speed
1; a camera whose penalty fires (draw 0 < 1/2) raises a stopped car to speed
1; and a stopped car leaves the camera-then-bump prefix at speed 1 on a draw
(1 ≥ 1/2) where the camera does nothing. -/
theorem C10_bump_revives_stopped_car_witness :
    ((affect (.speedBump 5) ⟨1, 0, 0⟩ (fun _ => 0) 0).1.speed = 1)
    ∧ ((affect (.speedCamera 15) ⟨1, 0, 0⟩ (fun _ => 0) 0).1.speed = 1)
    ∧ ((affect (.speedBump 5)
          (affect (.speedCamera 15) ⟨2, 0, 0⟩ (fun _ => 1) 0).1 (fun _ => 1)
          (affect (.speedCamera 15) ⟨2, 0, 0⟩ (fun _ => 1) 0).2).1.speed
        = 1) :=
  ⟨C10_bump_revives_stopped_car.1 5 ⟨1, 0, 0⟩ (fun _ => 0) 0 (by decide),
   C10_bump_revives_stopped_car.2.1 15 ⟨1, 0, 0⟩ (fun _ => 0) 0 (by decide)
      (by decide),
   C10_bump_revives_stopped_car.2.2 ⟨2, 0, 0⟩ (fun _ => 1) 0 (by decide)⟩

end TrafficSim
